import Mathlib

/-!
Shallow embedding of `akita_flask/testing.py`: the WSGI-to-HAR converter
`wsgi_to_har_entry` and the `HarClient` trace recorder.

Modelling conventions:
* Python strings are Lean `String` (a sequence of Unicode code points, so
  Python `len` on a `str` is `String.length`).
* A request/response payload (`bytes`) is represented by its UTF-8 decoding
  (a `String`); the byte length of the payload is `utf8Length` of that string.
* Wall-clock instants (`datetime` values and `time.time()` results) are
  rationals (seconds since the epoch); `datetime.tzinfo` is an `Option`.
* Python exceptions become an `Except PyError` result.
* The pieces of the Python standard library and of werkzeug that the source
  calls (`urllib.parse.urlsplit`, `urllib.parse.parse_qs`,
  `werkzeug.http.parse_cookie`, header lookup, `Headers.__str__`) are
  translated below, faithfully on the fragment of inputs the source feeds
  them (percent-decoding is modelled per escaped byte).
-/

/-- Python exceptions that the modelled code can raise. -/
inductive PyError where
  | valueError (msg : String)
  | keyError (key : String)
  | nameError (name : String)
deriving DecidableEq, Repr

/-- A Python `datetime`: seconds since the epoch plus optional timezone info
(`none` models `tzinfo is None`, i.e. a naive datetime; `some z` a
timezone-aware one with UTC offset `z` minutes). -/
structure PyDatetime where
  epochSeconds : ℚ
  tzinfo : Option Int
deriving DecidableEq, Repr

/-- A Python value stored in a `har.Record`'s `value` field: the source is
dynamically typed and stores either a single string (headers, cookies) or a
list of strings (what `parse_qs` yields per key). -/
inductive PyVal where
  | str (s : String)
  | strList (l : List String)
deriving DecidableEq, Repr

/-- `har.Record`: a name/value pair. -/
structure Record where
  name : String
  value : PyVal
deriving DecidableEq, Repr

/-- `har.PostData`: request body descriptor. -/
structure PostData where
  mimeType : String
  text : String
deriving DecidableEq, Repr

/-- `har.ResponseContent`: response body descriptor. -/
structure ResponseContent where
  size : Nat
  mimeType : String
  text : String
deriving DecidableEq, Repr

/-- `har.Request`. -/
structure HarRequest where
  method : String
  url : String
  httpVersion : String
  cookies : List Record
  headers : List Record
  queryString : List Record
  postData : Option PostData
  headersSize : Nat
  bodySize : Nat
deriving DecidableEq, Repr

/-- `har.Response`. `content` is optional in the HAR model so that presence
or absence of the body descriptor is observable; the converter's call site
always supplies one. -/
structure HarResponse where
  status : Nat
  statusText : String
  httpVersion : String
  cookies : List Record
  headers : List Record
  content : Option ResponseContent
  redirectURL : String
  headersSize : Nat
  bodySize : Nat
deriving DecidableEq, Repr

/-- `har.Cache()`: an empty placeholder record. -/
structure Cache where
deriving DecidableEq, Repr

/-- `har.Timings`. -/
structure Timings where
  send : ℚ
  wait : ℚ
  receive : ℚ
deriving DecidableEq, Repr

/-- `har.Entry`. -/
structure Entry where
  startedDateTime : PyDatetime
  time : ℚ
  request : HarRequest
  response : HarResponse
  cache : Cache
  timings : Timings
deriving DecidableEq, Repr

/-- A werkzeug WSGI `Request` as the converter consumes it: `url` is the
absolute URL (`request.url`), `environ` the WSGI environ dict, `headers` the
ordered header pairs, and `data` the UTF-8 decoding of `request.data`. -/
structure WsgiRequest where
  method : String
  url : String
  environ : List (String × String)
  headers : List (String × String)
  data : String
deriving DecidableEq, Repr

/-- A werkzeug `Response` as the converter consumes it: `content` is
`response.get_data(as_text=True)` and `wsgi_headers` is the header list
returned by `response.get_wsgi_headers(request.environ)`. -/
structure WsgiResponse where
  status_code : Nat
  status : String
  content : String
  content_type : String
  wsgi_headers : List (String × String)
deriving DecidableEq, Repr

/-- Byte length of the UTF-8 encoding of a string (Python `len(s.encode("utf-8"))`,
and the byte length of a payload modelled by its decoding). -/
def utf8Length (s : String) : Nat :=
  (s.data.map Char.utf8Size).sum

/-- Dict lookup in a WSGI environ (exact key match, first binding). -/
def environGet (environ : List (String × String)) (key : String) : Option String :=
  (environ.find? fun kv => kv.1 = key).map fun kv => kv.2

/-- ASCII lowercasing of one character (Python `str.lower` on the ASCII
range, which is all that header names and URL schemes use). -/
def lowerChar (c : Char) : Char :=
  if 65 ≤ c.toNat ∧ c.toNat ≤ 90 then Char.ofNat (c.toNat + 32) else c

/-- ASCII lowercasing of a string. -/
def lowerStr (s : String) : String :=
  String.mk (s.data.map lowerChar)

/-- Werkzeug `Headers.__getitem__` lookup: case-insensitive on the header
name, first match; `none` models the `KeyError` case. -/
def headersGet (headers : List (String × String)) (key : String) : Option String :=
  (headers.find? fun kv => lowerStr kv.1 = lowerStr key).map fun kv => kv.2

/-- Split a character list at the first occurrence of `c`; the occurrence
itself is dropped (Python `str.split(c, 1)` when `c` occurs). -/
def breakAtChar (c : Char) : List Char → Option (List Char × List Char)
  | [] => none
  | x :: xs =>
    if x = c then some ([], xs)
    else (breakAtChar c xs).map fun p => (x :: p.1, p.2)

/-- Characters allowed in a URL scheme by `urllib.parse` (ASCII letters,
digits, `+`, `-`, `.`). -/
def isSchemeChar (c : Char) : Bool :=
  (97 ≤ c.toNat && c.toNat ≤ 122) || (65 ≤ c.toNat && c.toNat ≤ 90) ||
  (48 ≤ c.toNat && c.toNat ≤ 57) || c == '+' || c == '-' || c == '.'

/-- Scheme extraction step of `urllib.parse.urlsplit`: the prefix before the
first `:` is a scheme when it is non-empty, starts with an ASCII letter and
consists of scheme characters only; otherwise the URL is left untouched. -/
def splitScheme (cs : List Char) : List Char × List Char :=
  match breakAtChar ':' cs with
  | none => ([], cs)
  | some (before, after) =>
    if !before.isEmpty && (before.headD ' ').isAlpha && before.all isSchemeChar
    then (before, after)
    else ([], cs)

/-- Netloc extraction step of `urllib.parse.urlsplit`: after a leading `//`,
the netloc runs until the next `/`, `?` or `#`. -/
def splitNetloc (cs : List Char) : List Char × List Char :=
  match cs with
  | '/' :: '/' :: tail =>
    let nl := tail.takeWhile fun c => !(c == '/' || c == '?' || c == '#')
    (nl, tail.drop nl.length)
  | _ => ([], cs)

/-- Fragment extraction step of `urllib.parse.urlsplit`: split at the first
`#`; the second component is the fragment. -/
def splitFragment (cs : List Char) : List Char × List Char :=
  match breakAtChar '#' cs with
  | none => (cs, [])
  | some (a, b) => (a, b)

/-- Query extraction step of `urllib.parse.urlsplit`: split at the first
`?`; the second component is the query. -/
def splitQuery (cs : List Char) : List Char × List Char :=
  match breakAtChar '?' cs with
  | none => (cs, [])
  | some (a, b) => (a, b)

/-- Result type of `urllib.parse.urlsplit`. -/
structure SplitResult where
  scheme : String
  netloc : String
  path : String
  query : String
  fragment : String
deriving DecidableEq, Repr

/-- `urllib.parse.urlsplit`: scheme, then netloc, then fragment, then query,
in the stdlib's order of extraction. -/
def urlsplit (url : String) : SplitResult :=
  let s1 := splitScheme url.data
  let s2 := splitNetloc s1.2
  let s3 := splitFragment s2.2
  let s4 := splitQuery s3.1
  { scheme := lowerStr (String.mk s1.1)
    netloc := String.mk s2.1
    path := String.mk s4.1
    query := String.mk s4.2
    fragment := String.mk s3.2 }

/-- Value of a hexadecimal digit, if any. -/
def hexVal (c : Char) : Option Nat :=
  if 48 ≤ c.toNat ∧ c.toNat ≤ 57 then some (c.toNat - 48)
  else if 97 ≤ c.toNat ∧ c.toNat ≤ 102 then some (c.toNat - 87)
  else if 65 ≤ c.toNat ∧ c.toNat ≤ 70 then some (c.toNat - 55)
  else none

/-- Percent-decoding with `+`-to-space, as `urllib.parse.unquote` applied
after `.replace('+', ' ')`; each `%XX` escape is decoded to one code point
(faithful for single-byte escapes, which is all the source exercises). -/
def unquoteChars : List Char → List Char
  | [] => []
  | '%' :: h1 :: h2 :: rest =>
    match hexVal h1, hexVal h2 with
    | some a, some b => Char.ofNat (16 * a + b) :: unquoteChars rest
    | _, _ => '%' :: unquoteChars (h1 :: h2 :: rest)
  | '+' :: rest => ' ' :: unquoteChars rest
  | c :: rest => c :: unquoteChars rest

/-- Python `urllib.parse.unquote_plus`. -/
def unquote_plus (s : String) : String :=
  String.mk (unquoteChars s.data)

/-- Python `str.split(sep)` for a one-character separator. -/
def splitOnChar (c : Char) : List Char → List (List Char)
  | [] => [[]]
  | x :: xs =>
    if x = c then [] :: splitOnChar c xs
    else
      match splitOnChar c xs with
      | [] => [[x]]
      | r :: rs => (x :: r) :: rs

/-- `urllib.parse.parse_qsl` with default arguments: split the query on `&`,
skip empty chunks, skip chunks with no `=` and chunks whose value is empty
(`keep_blank_values=False`), and unquote names and values. -/
def parse_qsl (qs : String) : List (String × String) :=
  (splitOnChar '&' qs.data).filterMap fun name_value =>
    if name_value = [] then none
    else
      match breakAtChar '=' name_value with
      | none => none
      | some (n, v) =>
        if v = [] then none
        else some (unquote_plus (String.mk n), unquote_plus (String.mk v))

/-- Fold one pair into a multidict held as an association list from key to
list of values, keys kept in first-appearance order. -/
def addPair (acc : List (String × List String)) (kv : String × String) :
    List (String × List String) :=
  if acc.any fun e => e.1 = kv.1 then
    acc.map fun e => if e.1 = kv.1 then (e.1, e.2 ++ [kv.2]) else e
  else acc ++ [(kv.1, [kv.2])]

/-- Group ordered pairs into a multidict (Python dict of lists, insertion
order = first appearance of each key). -/
def groupPairs (ps : List (String × String)) : List (String × List String) :=
  ps.foldl addPair []

/-- `urllib.parse.parse_qs` with default arguments: `parse_qsl` grouped into
a dict mapping each name to the list of its values. -/
def parse_qs (qs : String) : List (String × List String) :=
  groupPairs (parse_qsl qs)

/-- Whitespace as stripped by Python `str.strip()` on header text. -/
def isSpaceChar (c : Char) : Bool :=
  c == ' ' || c == '\t' || c == '\n' || c == '\r'

/-- Python `str.strip()`. -/
def stripChars (cs : List Char) : List Char :=
  ((cs.dropWhile isSpaceChar).reverse.dropWhile isSpaceChar).reverse

/-- One `name=value` chunk of a Cookie header: werkzeug splits at the first
`=`; a chunk with no `=` becomes a name with empty value. -/
def cookieChunk (chunk : List Char) : Option (String × String) :=
  let c := stripChars chunk
  if c = [] then none
  else
    match breakAtChar '=' c with
    | none => some (String.mk c, "")
    | some (n, v) => some (String.mk (stripChars n), String.mk (stripChars v))

/-- Werkzeug `parse_cookie` applied to a WSGI environ: read the
`HTTP_COOKIE` value, split it on `;`, and group the pairs into a multidict
(iteration yields each name once, in first-appearance order, with
`getlist` returning its values in order). -/
def parse_cookie (environ : List (String × String)) : List (String × List String) :=
  match environGet environ "HTTP_COOKIE" with
  | none => []
  | some s => groupPairs ((splitOnChar ';' s.data).filterMap cookieChunk)

/-- Source lines 58-60: `server_protocol = 'HTTP/1.1'` overridden by
`request.environ['SERVER_PROTOCOL']` when present. -/
def serverProtocol (request : WsgiRequest) : String :=
  (environGet request.environ "SERVER_PROTOCOL").getD "HTTP/1.1"

/-- Python `sep.join(parts)`. -/
def joinStrings (sep : String) : List String → String
  | [] => ""
  | [x] => x
  | x :: xs => x ++ sep ++ joinStrings sep xs

/-- Source line 65: the request headers serialized as `Name: Value` lines
joined by newline (before UTF-8 encoding). -/
def encodedHeaders (headers : List (String × String)) : String :=
  joinStrings "\n" (headers.map fun kv => kv.1 ++ ": " ++ kv.2)

/-- Werkzeug `Headers.__str__`: `Name: Value` lines and a final blank line,
joined by CRLF. -/
def headersStr (headers : List (String × String)) : String :=
  joinStrings "\r\n" ((headers.map fun kv => kv.1 ++ ": " ++ kv.2) ++ [String.mk ['\r', '\n']])

/-- Source line 77: `postData=None if not body else har.PostData(...)`; the
MIME type is `request.headers['Content-Type']`, whose lookup raises
`KeyError` when the header is absent. -/
def requestPostData (request : WsgiRequest) : Except PyError (Option PostData) :=
  if request.data = "" then .ok none
  else
    match headersGet request.headers "Content-Type" with
    | some ct => .ok (some { mimeType := ct, text := request.data })
    | none => .error (.keyError "Content-Type")

/-- Source lines 57-81 (`# Build request`): the `har.Request` value built by
`wsgi_to_har_entry`. -/
def buildHarRequest (request : WsgiRequest) : Except PyError HarRequest :=
  match requestPostData request with
  | .error e => .error e
  | .ok pd =>
    .ok { method := request.method
          url := (urlsplit request.url).path
          httpVersion := serverProtocol request
          cookies := (parse_cookie request.environ).flatMap fun kv =>
            kv.2.map fun v => Record.mk kv.1 (PyVal.str v)
          headers := request.headers.map fun kv => Record.mk kv.1 (PyVal.str kv.2)
          queryString := (parse_qs (urlsplit request.url).query).map fun kv =>
            Record.mk kv.1 (PyVal.strList kv.2)
          postData := pd
          headersSize := utf8Length (encodedHeaders request.headers)
          bodySize := request.data.length }

/-- Source lines 83-101 (`# Build response`): the `har.Response` value built
by `wsgi_to_har_entry`. -/
def buildHarResponse (request : WsgiRequest) (response : WsgiResponse) : HarResponse :=
  { status := response.status_code
    statusText := response.status
    httpVersion := serverProtocol request
    cookies := []
    headers := response.wsgi_headers.map fun kv => Record.mk kv.1 (PyVal.str kv.2)
    content := some { size := response.content.length
                      mimeType := response.content_type
                      text := response.content }
    redirectURL := ""
    headersSize := (headersStr response.wsgi_headers).length
    bodySize := response.content.length }

/-- Source lines 47-110, `wsgi_to_har_entry`: reject a timezone-naive start,
then build the entry; `now` is the value of `datetime.now(timezone.utc)`
observed when the entry is assembled, so `time` is
`(datetime.now(timezone.utc) - start).total_seconds()`. -/
def wsgi_to_har_entry (now : ℚ) (start : PyDatetime) (request : WsgiRequest)
    (response : WsgiResponse) : Except PyError Entry :=
  if start.tzinfo = none then
    .error (.valueError "start datetime must be timezone-aware")
  else
    match buildHarRequest request with
    | .error e => .error e
    | .ok har_request =>
      .ok { startedDateTime := start
            time := now - start.epochSeconds
            request := har_request
            response := buildHarResponse request response
            cache := {}
            timings := { send := 0, wait := 0, receive := 0 } }

/-- A single positional argument that `HarClient.open` may receive when one
pre-built object is passed (source lines 150-163): a
`werkzeug.test.EnvironBuilder`, a plain environ `dict`, or a werkzeug
`Request`. Each constructor carries the WSGI request that its branch would
reconstruct if it completed. -/
inductive RequestArg where
  | environBuilder (r : WsgiRequest)
  | environDict (r : WsgiRequest)
  | request (r : WsgiRequest)
deriving DecidableEq, Repr

/-- Argument set of one `HarClient.open` call: either exactly one positional
pre-built argument with no keyword arguments, or any other shape, which
falls through to the `EnvironBuilder(self.application, *args, **kwargs)`
path; `loose` carries the request that builder produces. -/
inductive OpenArgs where
  | single (arg : RequestArg)
  | loose (r : WsgiRequest)
deriving DecidableEq, Repr

namespace HarClient

/-- Source `_create_wsgi_request` (lines 142-168): dispatch on the call
shape. The `EnvironBuilder` and `Request` branches call `copy(arg)`, but
`copy` is neither imported nor defined anywhere in the module (the imports
are lines 31-43), so those branches raise `NameError` at run time; the
environ-dict branch uses `EnvironBuilder.from_environ` and succeeds, as does
the loose-argument fall-through. -/
def create_wsgi_request : OpenArgs → Except PyError WsgiRequest
  | .single (.environBuilder _) => .error (.nameError "copy")
  | .single (.request _) => .error (.nameError "copy")
  | .single (.environDict r) => .ok r
  | .loose r => .ok r

/-- One exchange issued through `HarClient.open`: `startTime` is the
`datetime.now(timezone.utc)` captured on entry (always timezone-aware, UTC),
`convTime` the clock value when the entry is assembled, `args` the call's
argument shape, and `response` the response returned by the delegated
`super().open(...)` call. -/
structure Exchange where
  startTime : ℚ
  convTime : ℚ
  args : OpenArgs
  response : WsgiResponse
deriving DecidableEq, Repr

/-- Source `_create_har_entry` (lines 171-173): reconstruct the WSGI request
from the call arguments, then convert. -/
def create_har_entry (ex : Exchange) : Except PyError Entry :=
  match create_wsgi_request ex.args with
  | .error e => .error e
  | .ok wsgi_request =>
    wsgi_to_har_entry ex.convTime { epochSeconds := ex.startTime, tzinfo := some 0 }
      wsgi_request ex.response

/-- Source `HarClient.open` (lines 119-123): the delegated exchange has
already produced `ex.response` by the time `_create_har_entry` runs; on
success the entry is appended to the writer's entry sequence (akita_har's
`HarWriter.write_entry`, an external collaborator, appends one entry per
call) and the response is returned; on failure the exception propagates and
nothing is appended. -/
def openRun (entries : List Entry) (ex : Exchange) :
    List Entry × Except PyError WsgiResponse :=
  match create_har_entry ex with
  | .ok entry => (entries ++ [entry], .ok ex.response)
  | .error e => (entries, .error e)

/-- Sequential exchanges on one recorder: fold `openRun` over the issued
exchanges, tracking the entries written to the trace. -/
def runAll (entries : List Entry) (exs : List Exchange) : List Entry :=
  exs.foldl (fun st ex => (openRun st ex).1) entries

/-- Default trace-file name, a function of the clock value interpolated into
it (source line 114). -/
def defaultHarFilePath (defTime : ℚ) : String :=
  "akita_trace_" ++ toString defTime ++ ".har"

/-- Construction state relevant here: the output path the writer opens. -/
structure InitResult where
  har_file_path : String
deriving DecidableEq, Repr

/-- Source `HarClient.__init__` (lines 113-117). Python evaluates a keyword
default once, when the `def` statement executes at class-definition (module
import) time, not at each call: `defTime` is the clock value of that single
evaluation, shared by every construction in the process, while
`constructionTime` is the clock when this particular construction runs and
does not influence the default. -/
def init (defTime : ℚ) (constructionTime : ℚ) (path? : Option String) : InitResult :=
  { har_file_path := path?.getD (defaultHarFilePath defTime) }

end HarClient

/-! Concrete fixtures used by the closed evaluation theorems and witnesses. -/

/-- A timezone-aware start instant (midnight epoch, UTC). -/
def start1 : PyDatetime := { epochSeconds := 0, tzinfo := some 0 }

/-- A naive start instant. -/
def startNaive : PyDatetime := { epochSeconds := 0, tzinfo := none }

/-- A GET request whose URL carries a repeated query parameter. -/
def req1 : WsgiRequest :=
  { method := "GET"
    url := "http://localhost/search?tag=a&tag=b&q=x"
    environ := []
    headers := []
    data := "" }

/-- A GET request whose URL carries a query string and a fragment. -/
def req3 : WsgiRequest :=
  { method := "GET"
    url := "http://localhost/search?tag=a#frag"
    environ := []
    headers := []
    data := "" }

/-- A POST request whose body holds one non-ASCII character (two UTF-8
bytes, one code point). -/
def req6 : WsgiRequest :=
  { method := "POST"
    url := "http://localhost/x"
    environ := []
    headers := [("Content-Type", "text/plain")]
    data := "é" }

/-- A response with an empty body. -/
def resp1 : WsgiResponse :=
  { status_code := 200
    status := "200 OK"
    content := ""
    content_type := "text/html"
    wsgi_headers := [] }

/-- Placeholder entry used as the default of `Option.getD` below; the
`getD` never falls back to it because the conversions succeed. -/
def dfltEntry : Entry :=
  { startedDateTime := start1, time := 0
    request := { method := "", url := "", httpVersion := "", cookies := [], headers := []
                 queryString := [], postData := none, headersSize := 0, bodySize := 0 }
    response := { status := 0, statusText := "", httpVersion := "", cookies := [], headers := []
                  content := none, redirectURL := "", headersSize := 0, bodySize := 0 }
    cache := {}
    timings := { send := 0, wait := 0, receive := 0 } }

/-- The entry the converter produces for `req1`/`resp1` at clock value 1. -/
def entry1 : Entry := ((wsgi_to_har_entry 1 start1 req1 resp1).toOption).getD dfltEntry

/-- The entry the converter produces for `req1`/`resp1` at clock value 2. -/
def entry2 : Entry := ((wsgi_to_har_entry 2 start1 req1 resp1).toOption).getD dfltEntry

/-- The entry the converter produces for `req3`/`resp1` at clock value 1. -/
def entry3 : Entry := ((wsgi_to_har_entry 1 start1 req3 resp1).toOption).getD dfltEntry

/-- The entry the converter produces for `req6`/`resp1` at clock value 2. -/
def entry6 : Entry := ((wsgi_to_har_entry 2 start1 req6 resp1).toOption).getD dfltEntry

/-- An exchange through the loose-argument call shape. -/
def exLoose : HarClient.Exchange :=
  { startTime := 0, convTime := 1, args := .loose req1, response := resp1 }

/-- An exchange whose single positional argument is a pre-built
`EnvironBuilder`. -/
def exPrebuilt : HarClient.Exchange :=
  { startTime := 0, convTime := 1, args := .single (.environBuilder req1), response := resp1 }

/-! Inversion lemmas for the converter. -/

/-- The only error `requestPostData` can produce is the missing
`Content-Type` `KeyError`. -/
theorem requestPostData_error (request : WsgiRequest) (e : PyError)
    (h : requestPostData request = .error e) : e = .keyError "Content-Type" := by
  unfold requestPostData at h
  split at h
  · cases h
  · split at h
    · cases h
    · cases h; rfl

/-- The only error `buildHarRequest` can produce is the missing
`Content-Type` `KeyError`. -/
theorem buildHarRequest_error (request : WsgiRequest) (e : PyError)
    (h : buildHarRequest request = .error e) : e = .keyError "Content-Type" := by
  unfold buildHarRequest at h
  cases hp : requestPostData request with
  | error e2 =>
    rw [hp] at h
    cases h
    exact requestPostData_error request _ hp
  | ok pd => rw [hp] at h; cases h

/-- Shape of a successful conversion. -/
theorem wsgi_to_har_entry_ok (now : ℚ) (start : PyDatetime) (request : WsgiRequest)
    (response : WsgiResponse) (e : Entry)
    (h : wsgi_to_har_entry now start request response = .ok e) :
    ∃ har_request, buildHarRequest request = .ok har_request ∧
      e = { startedDateTime := start, time := now - start.epochSeconds,
            request := har_request, response := buildHarResponse request response,
            cache := {}, timings := { send := 0, wait := 0, receive := 0 } } := by
  unfold wsgi_to_har_entry at h
  split at h
  · cases h
  · cases hb : buildHarRequest request with
    | error e2 => rw [hb] at h; cases h
    | ok hreq => rw [hb] at h; cases h; exact ⟨hreq, rfl, rfl⟩

/-- Shape of a successfully built HAR request. -/
theorem buildHarRequest_ok (request : WsgiRequest) (har_request : HarRequest)
    (h : buildHarRequest request = .ok har_request) :
    ∃ pd, requestPostData request = .ok pd ∧
      har_request = { method := request.method
                      url := (urlsplit request.url).path
                      httpVersion := serverProtocol request
                      cookies := (parse_cookie request.environ).flatMap fun kv =>
                        kv.2.map fun v => Record.mk kv.1 (PyVal.str v)
                      headers := request.headers.map fun kv => Record.mk kv.1 (PyVal.str kv.2)
                      queryString := (parse_qs (urlsplit request.url).query).map fun kv =>
                        Record.mk kv.1 (PyVal.strList kv.2)
                      postData := pd
                      headersSize := utf8Length (encodedHeaders request.headers)
                      bodySize := request.data.length } := by
  unfold buildHarRequest at h
  cases hp : requestPostData request with
  | error e2 => rw [hp] at h; cases h
  | ok pd => rw [hp] at h; cases h; exact ⟨pd, rfl, rfl⟩

/-- Behaviour of the postData construction: absent exactly when the body is
empty; when present it carries the body text and the Content-Type header. -/
theorem requestPostData_ok (request : WsgiRequest) (pd : Option PostData)
    (h : requestPostData request = .ok pd) :
    (pd = none ↔ request.data = "") ∧
    ∀ p, pd = some p → p.text = request.data ∧
      headersGet request.headers "Content-Type" = some p.mimeType := by
  unfold requestPostData at h
  split at h
  · rename_i hd
    cases h
    exact ⟨by simp [hd], by intro p hp; cases hp⟩
  · rename_i hd
    cases hg : headersGet request.headers "Content-Type" with
    | some ct =>
      rw [hg] at h
      cases h
      constructor
      · simp [hd]
      · intro p hp
        cases hp
        exact ⟨rfl, hg.symm ▸ rfl⟩
    | none => rw [hg] at h; cases h

/-! Lemmas about the URL-splitting characters. -/

/-- When `breakAtChar` finds no occurrence, the character is absent. -/
theorem breakAtChar_none_not_mem (c : Char) :
    ∀ cs : List Char, breakAtChar c cs = none → c ∉ cs := by
  intro cs
  induction cs with
  | nil => intro _ h; simp at h
  | cons x xs ih =>
    intro h
    unfold breakAtChar at h
    split at h
    · cases h
    · rename_i hxc
      rw [Option.map_eq_none'] at h
      intro hmem
      rcases List.mem_cons.mp hmem with h1 | h2
      · exact hxc h1.symm
      · exact ih h h2

/-- The prefix returned by `breakAtChar` is free of the split character and
drawn from the input. -/
theorem breakAtChar_some_spec (c : Char) :
    ∀ cs a b, breakAtChar c cs = some (a, b) → c ∉ a ∧ ∀ x ∈ a, x ∈ cs := by
  intro cs
  induction cs with
  | nil => intro a b h; simp [breakAtChar] at h
  | cons x xs ih =>
    intro a b h
    unfold breakAtChar at h
    split at h
    · cases h
      exact ⟨by simp, by simp⟩
    · rename_i hxc
      cases hb : breakAtChar c xs with
      | none => rw [hb] at h; cases h
      | some p =>
        rw [hb] at h
        cases h
        obtain ⟨hna, hsub⟩ := ih p.1 p.2 (by rw [hb])
        constructor
        · intro hmem
          rcases List.mem_cons.mp hmem with h1 | h2
          · exact hxc h1.symm
          · exact hna h2
        · intro y hy
          rcases List.mem_cons.mp hy with h1 | h2
          · exact h1 ▸ List.mem_cons_self x xs
          · exact List.mem_cons_of_mem x (hsub y h2)

/-- Everything at or after the first `#` is removed by `splitFragment`. -/
theorem splitFragment_fst_not_hash (cs : List Char) : '#' ∉ (splitFragment cs).1 := by
  unfold splitFragment
  cases hb : breakAtChar '#' cs with
  | none => exact breakAtChar_none_not_mem '#' cs hb
  | some p => exact (breakAtChar_some_spec '#' cs p.1 p.2 (by rw [hb])).1

/-- Everything at or after the first `?` is removed by `splitQuery`. -/
theorem splitQuery_fst_not_q (cs : List Char) : '?' ∉ (splitQuery cs).1 := by
  unfold splitQuery
  cases hb : breakAtChar '?' cs with
  | none => exact breakAtChar_none_not_mem '?' cs hb
  | some p => exact (breakAtChar_some_spec '?' cs p.1 p.2 (by rw [hb])).1

/-- The pre-query part is drawn from the input characters. -/
theorem splitQuery_fst_sub (cs : List Char) : ∀ x ∈ (splitQuery cs).1, x ∈ cs := by
  unfold splitQuery
  cases hb : breakAtChar '?' cs with
  | none => simp
  | some p =>
    intro x hx
    exact (breakAtChar_some_spec '?' cs p.1 p.2 (by rw [hb])).2 x hx

/-- The path produced by `urlsplit` contains neither `?` nor `#`. -/
theorem urlsplit_path_no_query_no_fragment (url : String) :
    ∀ c ∈ (urlsplit url).path.data, c ≠ '?' ∧ c ≠ '#' := by
  intro c hc
  have hdata : (urlsplit url).path.data
      = (splitQuery (splitFragment (splitNetloc (splitScheme url.data).2).2).1).1 := rfl
  rw [hdata] at hc
  constructor
  · rintro rfl
    exact splitQuery_fst_not_q _ hc
  · rintro rfl
    exact splitFragment_fst_not_hash _ (splitQuery_fst_sub _ _ hc)

/-! UTF-8 byte-length lemmas. -/

/-- An ASCII character encodes to exactly one UTF-8 byte. -/
theorem utf8Size_eq_one_of_lt_128 (c : Char) (h : c.toNat < 128) : c.utf8Size = 1 := by
  unfold Char.utf8Size
  rw [if_pos]
  rw [UInt32.le_def, BitVec.le_def]
  show c.val.toBitVec.toNat ≤ 127
  have hc : c.val.toBitVec.toNat = c.toNat := rfl
  omega

/-- A list of ASCII characters encodes to one byte per character. -/
theorem ascii_utf8Size_sum : ∀ l : List Char, (∀ c ∈ l, c.toNat < 128) →
    (l.map Char.utf8Size).sum = l.length := by
  intro l
  induction l with
  | nil => intro _; rfl
  | cons x xs ih =>
    intro h
    simp only [List.map_cons, List.sum_cons, List.length_cons]
    rw [utf8Size_eq_one_of_lt_128 x (h x (List.mem_cons_self x xs)),
      ih fun c hc => h c (List.mem_cons_of_mem x hc)]
    omega

/-- For an ASCII string, UTF-8 byte length and code-point count agree. -/
theorem ascii_utf8Length (s : String) (h : ∀ c ∈ s.data, c.toNat < 128) :
    utf8Length s = s.length := by
  unfold utf8Length
  have hlen : s.length = s.data.length := rfl
  rw [hlen]
  exact ascii_utf8Size_sum s.data h

/-! Recorder lemmas. -/

/-- The entries after one `open` call: the prior entries followed by the
converted entry when conversion succeeds, unchanged otherwise. -/
theorem openRun_fst (entries : List Entry) (ex : HarClient.Exchange) :
    (HarClient.openRun entries ex).1
      = entries ++ ((HarClient.create_har_entry ex).toOption).toList := by
  unfold HarClient.openRun
  cases HarClient.create_har_entry ex <;> simp [Except.toOption]

/-- Unfolding one step of `runAll`. -/
theorem runAll_cons (entries : List Entry) (ex : HarClient.Exchange)
    (exs : List HarClient.Exchange) :
    HarClient.runAll entries (ex :: exs)
      = HarClient.runAll ((HarClient.openRun entries ex).1) exs := rfl

/-- Entries already in the trace are never rewritten or reordered: a run
only appends after them. -/
theorem runAll_append (exs : List HarClient.Exchange) :
    ∀ entries, HarClient.runAll entries exs = entries ++ HarClient.runAll [] exs := by
  induction exs with
  | nil => intro entries; simp [HarClient.runAll]
  | cons ex exs ih =>
    intro entries
    rw [runAll_cons, ih, runAll_cons ([] : List Entry), ih ((HarClient.openRun [] ex).1)]
    rw [openRun_fst, openRun_fst]
    simp

/-- When every conversion succeeds, the written entries correspond pairwise,
in order, to the issued exchanges. -/
theorem runAll_forall2 (exs : List HarClient.Exchange)
    (h : ∀ ex ∈ exs, (HarClient.create_har_entry ex).isOk = true) :
    List.Forall₂ (fun ex e => HarClient.create_har_entry ex = .ok e) exs
      (HarClient.runAll [] exs) := by
  induction exs with
  | nil => exact List.Forall₂.nil
  | cons ex exs ih =>
    have hex := h ex (List.mem_cons_self ex exs)
    cases hc : HarClient.create_har_entry ex with
    | error e =>
      rw [hc] at hex
      simp [Except.isOk, Except.toBool] at hex
    | ok entry =>
      have hstep : HarClient.runAll [] (ex :: exs) = entry :: HarClient.runAll [] exs := by
        rw [runAll_cons, runAll_append, openRun_fst]
        simp [hc, Except.toOption]
      rw [hstep]
      exact List.Forall₂.cons hc (ih fun e2 he => h e2 (List.mem_cons_of_mem ex he))

/-! Claim theorems. -/

/-- C1: the converter is claimed to emit one queryString record per query
value, in URL order, each holding a single string, so that
`/search?tag=a&tag=b&q=x` yields exactly the three records (tag,a), (tag,b),
(q,x). Evaluating the code at that very URL shows it instead emits one
record per parameter name via `parse_qs`, two records in total, each holding
a list of values, which differs from the three claimed single-valued
records. -/
theorem c1_query_records_merged :
    (wsgi_to_har_entry 1 start1 req1 resp1).toOption.map (fun e => e.request.queryString)
      = some [Record.mk "tag" (PyVal.strList ["a", "b"]),
              Record.mk "q" (PyVal.strList ["x"])] ∧
    ([Record.mk "tag" (PyVal.strList ["a", "b"]), Record.mk "q" (PyVal.strList ["x"])]
      : List Record)
      ≠ [Record.mk "tag" (PyVal.str "a"), Record.mk "tag" (PyVal.str "b"),
         Record.mk "q" (PyVal.str "x")] ∧
    req1.url = "http://localhost/search?tag=a&tag=b&q=x" := by
  exact ⟨rfl, by decide, rfl⟩

/-- C2 counterexample: at elapsed wall-clock time 2 seconds the entry built
by the code has `time = 2` (seconds, not the claimed 2000 milliseconds) and
`timings.wait = 0` (not the elapsed time, and zero although the elapsed
time is non-zero). -/
theorem c2_counterexample :
    (wsgi_to_har_entry 2 start1 req1 resp1).toOption.map
        (fun e => (e.time, e.timings.send, e.timings.wait, e.timings.receive))
      = some (2 - start1.epochSeconds, 0, 0, 0) ∧
    (2 - start1.epochSeconds : ℚ) = 2 ∧
    (2 : ℚ) ≠ 1000 * 2 ∧ (0 : ℚ) ≠ 1000 * 2 ∧ (2 : ℚ) ≠ 0 := by
  refine ⟨rfl, by norm_num [start1], by norm_num, by norm_num, by norm_num⟩

/-- C2 (amended): for every successful conversion, the entry's `time` field
equals the elapsed wall-clock duration between the start timestamp and the
moment the entry is built expressed in seconds (`total_seconds()`), and the
timings record has `send = 0`, `wait = 0` and `receive = 0`, so `wait` never
carries the elapsed time. -/
theorem c2_time_seconds_timings_zero (now : ℚ) (start : PyDatetime)
    (request : WsgiRequest) (response : WsgiResponse) (e : Entry)
    (h : wsgi_to_har_entry now start request response = .ok e) :
    e.time = now - start.epochSeconds ∧ e.timings.send = 0 ∧ e.timings.wait = 0 ∧
      e.timings.receive = 0 := by
  obtain ⟨hreq, hb, rfl⟩ := wsgi_to_har_entry_ok now start request response e h
  exact ⟨rfl, rfl, rfl, rfl⟩

/-- C2 witness: the amended statement instantiated at a concrete successful
conversion. -/
theorem c2_witness :
    entry2.time = 2 - start1.epochSeconds ∧ entry2.timings.send = 0 ∧
      entry2.timings.wait = 0 ∧ entry2.timings.receive = 0 :=
  c2_time_seconds_timings_zero 2 start1 req1 resp1 entry2 rfl

/-- C3 counterexample: for the absolute URL
`http://localhost/search?tag=a#frag` the code emits `request.url = "/search"`,
not the claimed scheme+host+path `http://localhost/search`. -/
theorem c3_counterexample :
    (wsgi_to_har_entry 1 start1 req3 resp1).toOption.map (fun e => e.request.url)
      = some "/search" ∧
    "/search" ≠ "http://localhost/search" ∧
    req3.url = "http://localhost/search?tag=a#frag" := by
  exact ⟨rfl, by decide, rfl⟩

/-- C3 (amended): for every successful conversion, the emitted `request.url`
is exactly the path component of the parsed URL — the scheme and host are
stripped along with the query string and fragment (the emitted URL contains
no `?` and no `#` character) — and every query parameter appears in
`queryString` (as grouped by `parse_qs`). -/
theorem c3_url_is_path_only (now : ℚ) (start : PyDatetime) (request : WsgiRequest)
    (response : WsgiResponse) (e : Entry)
    (h : wsgi_to_har_entry now start request response = .ok e) :
    e.request.url = (urlsplit request.url).path ∧
    (∀ c ∈ e.request.url.data, c ≠ '?' ∧ c ≠ '#') ∧
    e.request.queryString = (parse_qs (urlsplit request.url).query).map fun kv =>
      Record.mk kv.1 (PyVal.strList kv.2) := by
  obtain ⟨hreq, hb, rfl⟩ := wsgi_to_har_entry_ok now start request response e h
  obtain ⟨pd, hp, rfl⟩ := buildHarRequest_ok request hreq hb
  exact ⟨rfl, fun c hc => urlsplit_path_no_query_no_fragment request.url c hc, rfl⟩

/-- C3 witness: the amended statement instantiated at a concrete URL with a
query string and fragment. -/
theorem c3_witness :
    entry3.request.url = (urlsplit req3.url).path ∧
    (∀ c ∈ entry3.request.url.data, c ≠ '?' ∧ c ≠ '#') ∧
    entry3.request.queryString = (parse_qs (urlsplit req3.url).query).map fun kv =>
      Record.mk kv.1 (PyVal.strList kv.2) :=
  c3_url_is_path_only 1 start1 req3 resp1 entry3 rfl

/-- C4 counterexample: for a response whose body is empty, the code still
emits a present (not absent) `content` descriptor with MIME type, size 0 and
empty text, contradicting the claimed omission on the response side. -/
theorem c4_counterexample :
    resp1.content = "" ∧
    (wsgi_to_har_entry 1 start1 req1 resp1).toOption.map (fun e => e.response.content)
      = some (some { size := 0, mimeType := "text/html", text := "" }) := by
  exact ⟨rfl, rfl⟩

/-- C4 (amended): for every successful conversion, the request's `postData`
descriptor is absent exactly when the request body is empty and, when
present, carries the body text and the request's Content-Type; the
response's `content` descriptor, by contrast, is always emitted, for empty
bodies as well. -/
theorem c4_body_descriptors (now : ℚ) (start : PyDatetime) (request : WsgiRequest)
    (response : WsgiResponse) (e : Entry)
    (h : wsgi_to_har_entry now start request response = .ok e) :
    (e.request.postData = none ↔ request.data = "") ∧
    (∀ p, e.request.postData = some p → p.text = request.data ∧
      headersGet request.headers "Content-Type" = some p.mimeType) ∧
    e.response.content = some { size := response.content.length
                                mimeType := response.content_type
                                text := response.content } := by
  obtain ⟨hreq, hb, rfl⟩ := wsgi_to_har_entry_ok now start request response e h
  obtain ⟨pd, hp, rfl⟩ := buildHarRequest_ok request hreq hb
  obtain ⟨h1, h2⟩ := requestPostData_ok request pd hp
  exact ⟨h1, h2, rfl⟩

/-- C4 witness: the amended statement instantiated at a POST with a
non-empty body and a response with an empty body. -/
theorem c4_witness :
    (entry6.request.postData = none ↔ req6.data = "") ∧
    (∀ p, entry6.request.postData = some p → p.text = req6.data ∧
      headersGet req6.headers "Content-Type" = some p.mimeType) ∧
    entry6.response.content = some { size := resp1.content.length
                                     mimeType := resp1.content_type
                                     text := resp1.content } :=
  c4_body_descriptors 2 start1 req6 resp1 entry6 rfl

/-- C5: a conversion fails with the timezone `ValueError` (the
InvalidArgument-kind rejection, raised before any part of the entry is
built) precisely when the start timestamp is timezone-naive; for every
timezone-aware start the timezone check never fires. -/
theorem c5_timezone_required (now : ℚ) (start : PyDatetime) (request : WsgiRequest)
    (response : WsgiResponse) :
    wsgi_to_har_entry now start request response
        = .error (.valueError "start datetime must be timezone-aware")
      ↔ start.tzinfo = none := by
  constructor
  · intro h
    by_contra hne
    unfold wsgi_to_har_entry at h
    rw [if_neg hne] at h
    cases hb : buildHarRequest request with
    | error e =>
      rw [hb] at h
      cases h
      exact PyError.noConfusion (buildHarRequest_error request _ hb)
    | ok hreq => rw [hb] at h; cases h
  · intro h
    unfold wsgi_to_har_entry
    rw [if_pos h]

/-- C6 counterexample: for a request body consisting of the single non-ASCII
character `é` — two UTF-8 bytes, one code point — the code records
`bodySize = 1`, the character count, not the claimed byte length 2. -/
theorem c6_counterexample :
    req6.data = "é" ∧
    (wsgi_to_har_entry 2 start1 req6 resp1).toOption.map (fun e => e.request.bodySize)
      = some 1 ∧
    utf8Length req6.data = 2 ∧ (1 : Nat) ≠ 2 := by
  exact ⟨rfl, rfl, rfl, by decide⟩

/-- C6 (amended): for every successful conversion, request and response
`bodySize` equal the code-point count (Python `len` of the decoded text) of
the respective body — computed from the body itself, not from any
content-length header — which coincides with the UTF-8 byte length exactly
when the body is pure ASCII. -/
theorem c6_body_size_char_count (now : ℚ) (start : PyDatetime) (request : WsgiRequest)
    (response : WsgiResponse) (e : Entry)
    (h : wsgi_to_har_entry now start request response = .ok e) :
    e.request.bodySize = request.data.length ∧
    e.response.bodySize = response.content.length ∧
    ((∀ c ∈ request.data.data, c.toNat < 128) →
      e.request.bodySize = utf8Length request.data) := by
  obtain ⟨hreq, hb, rfl⟩ := wsgi_to_har_entry_ok now start request response e h
  obtain ⟨pd, hp, rfl⟩ := buildHarRequest_ok request hreq hb
  refine ⟨rfl, rfl, fun hascii => ?_⟩
  exact (ascii_utf8Length request.data hascii).symm

/-- C6 witness: the amended statement instantiated at a concrete
conversion. -/
theorem c6_witness :
    entry1.request.bodySize = req1.data.length ∧
    entry1.response.bodySize = resp1.content.length ∧
    ((∀ c ∈ req1.data.data, c.toNat < 128) →
      entry1.request.bodySize = utf8Length req1.data) :=
  c6_body_size_char_count 1 start1 req1 resp1 entry1 rfl

/-- C7: for every sequence of N sequential exchanges on one recorder whose
conversions succeed, exactly N entries are written, pairwise corresponding
in issue order to the exchanges, and any entries already in the trace are
preserved unchanged as a prefix — no reordering, deduplication or rewriting
of prior entries. -/
theorem c7_entries_order_count (exs : List HarClient.Exchange)
    (h : ∀ ex ∈ exs, (HarClient.create_har_entry ex).isOk = true) :
    (HarClient.runAll [] exs).length = exs.length ∧
    List.Forall₂ (fun ex e => HarClient.create_har_entry ex = .ok e) exs
      (HarClient.runAll [] exs) ∧
    ∀ prior : List Entry, HarClient.runAll prior exs = prior ++ HarClient.runAll [] exs := by
  have hf := runAll_forall2 exs h
  exact ⟨hf.length_eq.symm, hf, fun prior => runAll_append exs prior⟩

/-- C7 witness: the statement instantiated at a concrete one-exchange run. -/
theorem c7_witness :
    (HarClient.runAll [] [exLoose]).length = [exLoose].length ∧
    List.Forall₂ (fun ex e => HarClient.create_har_entry ex = .ok e) [exLoose]
      (HarClient.runAll [] [exLoose]) ∧
    ∀ prior : List Entry,
      HarClient.runAll prior [exLoose] = prior ++ HarClient.runAll [] [exLoose] :=
  c7_entries_order_count [exLoose] (by
    intro ex hex
    simp only [List.mem_singleton] at hex
    subst hex
    rfl)

/-- C8: two recorder constructions without an explicit output path receive
identical default trace-file paths even when constructed at distinct clock
times, because Python evaluates the keyword default once at class-definition
time; this refutes the claimed collision-resistant per-construction
re-evaluation. -/
theorem c8_default_path_collision (defTime t1 t2 : ℚ) (h : t1 ≠ t2) :
    (HarClient.init defTime t1 none).har_file_path
      = (HarClient.init defTime t2 none).har_file_path := rfl

/-- C8 witness: two constructions at clock times 1 and 2 share the default
path. -/
theorem c8_witness :
    (HarClient.init 0 1 none).har_file_path = (HarClient.init 0 2 none).har_file_path :=
  c8_default_path_collision 0 1 2 (by norm_num)

/-- C9: when `open` is given exactly one positional argument that is a
pre-built `EnvironBuilder` or `Request` and no keyword arguments, the
snapshot reconstruction performed after the delegated call raises
`NameError` on the undefined name `copy`, so the error propagates and no HAR
entry is recorded for the exchange. -/
theorem c9_prebuilt_arg_name_error (entries : List Entry) (ex : HarClient.Exchange)
    (r : WsgiRequest)
    (h : ex.args = OpenArgs.single (RequestArg.environBuilder r) ∨
         ex.args = OpenArgs.single (RequestArg.request r)) :
    HarClient.openRun entries ex = (entries, .error (.nameError "copy")) := by
  unfold HarClient.openRun HarClient.create_har_entry
  rcases h with h | h <;> rw [h] <;> rfl

/-- C9 witness: a concrete call with a pre-built `EnvironBuilder` argument. -/
theorem c9_witness :
    HarClient.openRun [] exPrebuilt = ([], .error (.nameError "copy")) :=
  c9_prebuilt_arg_name_error [] exPrebuilt req1 (Or.inl rfl)

/-- C10: for every successful conversion, the HAR response record's cookies
list is empty and its redirectURL is the empty string, whatever the
response's headers contain. -/
theorem c10_response_no_cookies_no_redirect (now : ℚ) (start : PyDatetime)
    (request : WsgiRequest) (response : WsgiResponse) (e : Entry)
    (h : wsgi_to_har_entry now start request response = .ok e) :
    e.response.cookies = [] ∧ e.response.redirectURL = "" := by
  obtain ⟨hreq, hb, rfl⟩ := wsgi_to_har_entry_ok now start request response e h
  exact ⟨rfl, rfl⟩

/-- C10 witness: the statement instantiated at a concrete conversion. -/
theorem c10_witness :
    entry2.response.cookies = [] ∧ entry2.response.redirectURL = "" :=
  c10_response_no_cookies_no_redirect 2 start1 req1 resp1 entry2 rfl
